import Mathlib

/-
Verification of the transaction submission core of allouf/flipCoin
(src/utils/transaction.ts): the retrying submitter `retryTransaction`,
the classifier `isRetryableError`, and the formatter
`formatTransactionError`, shallowly embedded in Lean.

Modelling conventions:
* JavaScript strings are Lean `String`s; `String.prototype.includes` is
  the executable substring test `includes` below (case-sensitive, as in JS).
* `toLowerCase` is modelled on the ASCII range, which covers every
  marker string the code matches against.
* JS numbers in the formatter are modelled exactly: the lamport amounts
  captured by the regex are natural numbers, division by 1e9 followed by
  `toFixed(3)` is modelled as decimal rounding to three places
  (exact for every amount that is a multiple of 10^6, and matching the
  float result for all inputs appearing in the claims).
* The asynchronous environment of `retryTransaction` (connection,
  wallet `transaction()` thunk, confirmation race, `Math.random()`
  jitter) is a `Behavior` oracle; the run produces the JS return value
  (`Except` for resolve/reject) together with a trace of observable
  events (blockhash fetches, sendFn invocations, confirmation waits,
  backoff sleeps).
-/

namespace FlipCoin

/-- JS `haystack.includes(needle)`: drop a literal prefix, `none` on mismatch. -/
def dropLit : List Char → List Char → Option (List Char)
  | [], cs => some cs
  | _ :: _, [] => none
  | t :: ts, c :: cs => if t = c then dropLit ts cs else none

/-- Bool test: does `needle` occur (contiguously) anywhere in the list? -/
def listIncludes (needle : List Char) : List Char → Bool
  | [] => (dropLit needle []).isSome
  | c :: cs => (dropLit needle (c :: cs)).isSome || listIncludes needle cs

/-- JS `hay.includes(sub)` (case-sensitive substring containment). -/
def includes (hay sub : String) : Bool := listIncludes sub.toList hay.toList

/-- ASCII lower-casing of one character, as `String.prototype.toLowerCase`
acts on the ASCII range. -/
def lowerChar (c : Char) : Char :=
  if 'A' ≤ c ∧ c ≤ 'Z' then Char.ofNat (c.toNat + 32) else c

/-- JS `s.toLowerCase()` restricted to ASCII. -/
def toLower (s : String) : String := String.mk (s.toList.map lowerChar)

/-- The fixed list of retryable markers from `isRetryableError`
(transaction.ts lines 146-162). -/
def retryableMarkers : List String :=
  [ "blockhash not found"
  , "blockhashnotfound"
  , "simulation failed"
  , "transaction simulation failed"
  , "accountdidnotserialize"
  , "network error"
  , "network request failed"
  , "timeout"
  , "rate limit"
  , "429"
  , "too many requests"
  , "connection refused"
  , "fetch failed"
  , "rpc response error"
  , "failed to get recent blockhash" ]

/-- `isRetryableError` (transaction.ts lines 143-165): lower-case the
message and test it against each retryable marker. -/
def isRetryableError (message : String) : Bool :=
  let m := toLower message
  retryableMarkers.any fun marker => includes m marker

/-- The `isProgramLogicError` test inside `retryTransaction`
(transaction.ts lines 76-85): program-specific errors that are never
retried, matched case-sensitively on the raw message. -/
def isProgramLogicError (msg : String) : Bool :=
  includes msg "RoomNotAvailable" ||
  includes msg "GameAlreadyStarted" ||
  includes msg "InvalidGameState" ||
  includes msg "SelectionTimeExpired" ||
  includes msg "Error Number: 6001" ||
  includes msg "Error Number: 6002" ||
  includes msg "Error Number: 6003" ||
  includes msg "Error Number: 6004" ||
  includes msg "Error Number: 6005"

/-- The non-retry condition of the catch block in `retryTransaction`
(transaction.ts lines 98-107): fatal substrings, program-logic errors,
or a non-retryable message that is not an AccountDidNotSerialize case. -/
def isNonRetryable (msg : String) : Bool :=
  includes msg "User rejected" ||
  includes msg "insufficient funds" ||
  includes msg "insufficient lamports" ||
  includes msg "Invalid program" ||
  includes msg "ConstraintMut" ||
  includes msg "no second player" ||
  isProgramLogicError msg ||
  (!(isRetryableError msg) && !(includes msg "AccountDidNotSerialize"))

/-- Consensus reference returned by `connection.getLatestBlockhash`
(transaction.ts line 24). -/
structure ConsensusRef where
  blockhash : String
  lastValidBlockHeight : Nat
deriving DecidableEq

/-- Observable events of one `retryTransaction` run. `fetch` is the
`getLatestBlockhash` call of an attempt, `settle` the fixed 300ms /
1000ms pauses, `sendCall` the invocation of the caller's `transaction()`
thunk, `confirmCall` the `confirmTransaction` wait with the reference it
is given, and `backoff` the exponential-backoff sleep (in ms). -/
inductive TxEvent where
  | fetch (attempt : Nat) (ref : ConsensusRef)
  | settle (ms : Nat)
  | sendCall (attempt : Nat)
  | confirmCall (attempt : Nat) (ref : ConsensusRef)
  | backoff (ms : ℚ)
deriving DecidableEq

/-- The asynchronous environment of one run, per attempt index:
the fresh blockhash the connection returns, the result of the caller's
`transaction()` thunk (signature or thrown error message), how the
confirmation promise behaves (`none` = never resolves, or resolves at a
time in ms with an optional on-chain error payload, the payload given as
its `JSON.stringify` rendering), and the `Math.random() * 500` jitter. -/
structure Behavior where
  refs : Nat → ConsensusRef
  send : Nat → Except String String
  confirmResolve : Nat → Option (Nat × Option String)
  jitter : Nat → ℚ

/-- The fixed 60-second confirmation timeout (transaction.ts line 50). -/
def confirmationTimeoutMs : Nat := 60000

/-- Outcome of `Promise.race([confirmationPromise, timeoutPromise])`. -/
inductive RaceOutcome where
  | confirmed (err : Option String)
  | timedOut
deriving DecidableEq

/-- The race of the confirmation promise against the fixed 60-second
timer (transaction.ts lines 48-53): the confirmation result is seen only
if it arrives strictly inside the window, otherwise the timer rejects. -/
def raceConfirmation (b : Behavior) (i : Nat) : RaceOutcome :=
  match b.confirmResolve i with
  | none => RaceOutcome.timedOut
  | some (t, p) =>
      if t < confirmationTimeoutMs then RaceOutcome.confirmed p
      else RaceOutcome.timedOut

/-- The error caught by attempt `i`'s catch block, if any: a `sendFn`
throw is caught as-is; a timed-out race throws
`Transaction confirmation timeout` (line 50); an on-chain error payload
throws `Transaction failed: <payload>` (line 57); a clean confirmation
throws nothing. -/
def attemptError (b : Behavior) (i : Nat) : Option String :=
  match b.send i with
  | Except.error e => some e
  | Except.ok _ =>
      match raceConfirmation b i with
      | RaceOutcome.timedOut => some "Transaction confirmation timeout"
      | RaceOutcome.confirmed (some p) => some ("Transaction failed: " ++ p)
      | RaceOutcome.confirmed none => none

/-- The signature produced by attempt `i` when its send succeeded. -/
def attemptSignature (b : Behavior) (i : Nat) : String :=
  match b.send i with
  | Except.ok sig => sig
  | Except.error _ => ""

/-- The observable events of attempt `i` up to (and excluding) any
backoff sleep: fetch the fresh reference (line 24), the 300ms settle on
attempts after the first (line 30), the `transaction()` call (line 33),
and — only when a signature was obtained — the confirmation wait against
the reference fetched by this same attempt (lines 39-46), followed by
the 1000ms settle on clean success (line 63). -/
def attemptEvents (b : Behavior) (i : Nat) : List TxEvent :=
  [TxEvent.fetch i (b.refs i)] ++
  (if 0 < i then [TxEvent.settle 300] else []) ++
  [TxEvent.sendCall i] ++
  (match b.send i with
   | Except.error _ => []
   | Except.ok _ =>
       [TxEvent.confirmCall i (b.refs i)] ++
       (match raceConfirmation b i with
        | RaceOutcome.confirmed none => [TxEvent.settle 1000]
        | _ => []))

/-- The backoff delay of transaction.ts lines 122-125:
`retryDelay * 2 ** attempt + jitter` with `jitter = Math.random() * 500`. -/
def backoffDelay (retryDelay : ℚ) (i : Nat) (j : ℚ) : ℚ :=
  retryDelay * 2 ^ i + j

/-- The attempt loop of `retryTransaction` (lines 21-135), with the loop
condition `attempt <= maxRetries` rendered as fuel: the caller passes
fuel `(maxRetries + 1).toNat`, so fuel `0` is exactly the loop condition
failing and falls through to the final `throw lastError` (line 137).
Inside an iteration the catch block either rethrows (non-retryable, or
`attempt === maxRetries` via the `break`), or sleeps the backoff delay
and continues with the caught error as `lastError`. -/
def retryGo (b : Behavior) (maxRetries : Int) (retryDelay : ℚ) :
    Nat → Nat → String → Except String String × List TxEvent
  | 0, _, lastError => (Except.error lastError, [])
  | Nat.succ fuel, i, _ =>
      let evs := attemptEvents b i
      match attemptError b i with
      | none => (Except.ok (attemptSignature b i), evs)
      | some e =>
          if isNonRetryable e then
            if includes e "User rejected" then
              (Except.error "Transaction was cancelled by user.", evs)
            else
              (Except.error e, evs)
          else if (i : Int) = maxRetries then
            (Except.error e, evs)
          else
            let rest := retryGo b maxRetries retryDelay fuel (i + 1) e
            (rest.1,
             evs ++ [TxEvent.backoff (backoffDelay retryDelay i (b.jitter i))]
                 ++ rest.2)

/-- Options of `retryTransaction` (transaction.ts lines 5-8, 18):
`maxRetries` defaults to 3, `retryDelay` to 1000ms. -/
structure RetryOptions where
  maxRetries : Int
  retryDelay : ℚ

/-- `retryTransaction` (transaction.ts lines 13-138): run the attempt
loop starting from attempt 0 with `lastError` initialised to the
placeholder `Transaction failed` error (line 19). -/
def retryTransaction (b : Behavior) (opts : RetryOptions) :
    Except String String × List TxEvent :=
  retryGo b opts.maxRetries opts.retryDelay
    (opts.maxRetries + 1).toNat 0 "Transaction failed"

/-- Number of `sendFn` invocations recorded in a trace. -/
def sendCalls (evs : List TxEvent) : Nat :=
  (evs.filter fun e =>
    match e with
    | TxEvent.sendCall _ => true
    | _ => false).length

/-- The backoff sleeps of a trace, in order. -/
def backoffs (evs : List TxEvent) : List ℚ :=
  evs.filterMap fun e =>
    match e with
    | TxEvent.backoff q => some q
    | _ => none

/-- Numeric value of a digit run, as `parseInt(s, 10)` on a `\d+`
capture (exact for every value a claim exercises). -/
def digitsVal (cs : List Char) : Nat :=
  cs.foldl (fun acc c => acc * 10 + (c.toNat - '0'.toNat)) 0

/-- One anchored trial of `/insufficient lamports (\d+), need (\d+)/`
at the head of the list: both captures are greedy maximal digit runs,
which is exactly what the regex yields since a comma can never extend a
digit run. -/
def matchLamportsAt (cs : List Char) : Option (Nat × Nat) :=
  match dropLit "insufficient lamports ".toList cs with
  | none => none
  | some rest =>
      let d1 := rest.takeWhile Char.isDigit
      if d1.isEmpty then none
      else
        match dropLit ", need ".toList (rest.drop d1.length) with
        | none => none
        | some rest2 =>
            let d2 := rest2.takeWhile Char.isDigit
            if d2.isEmpty then none
            else some (digitsVal d1, digitsVal d2)

/-- `message.match(/insufficient lamports (\d+), need (\d+)/)`
(transaction.ts line 197): first position at which the whole pattern
matches, scanning left to right. -/
def scanLamports : List Char → Option (Nat × Nat)
  | [] => none
  | c :: cs =>
      match matchLamportsAt (c :: cs) with
      | some r => some r
      | none => scanLamports cs

/-- JS `\w` word character: ASCII letter, digit or underscore. -/
def isWordChar (c : Char) : Bool := c.isAlphanum || c = '_'

/-- One anchored trial of `/Error Code: (\w+)/` at the head of the list. -/
def matchCodeAt (cs : List Char) : Option (List Char) :=
  match dropLit "Error Code: ".toList cs with
  | none => none
  | some rest =>
      let w := rest.takeWhile isWordChar
      if w.isEmpty then none else some w

/-- `originalMessage.match(/Error Code: (\w+)/)` (line 229): the first
position at which the whole pattern matches. -/
def scanCode : List Char → Option (List Char)
  | [] => none
  | c :: cs =>
      match matchCodeAt (c :: cs) with
      | some r => some r
      | none => scanCode cs

/-- Longest prefix not containing the separator, i.e. `s.split(sep)[0]`. -/
def takeUntilLit (sep : List Char) : List Char → List Char
  | [] => []
  | c :: cs =>
      match dropLit sep (c :: cs) with
      | some _ => []
      | none => c :: takeUntilLit sep cs

/-- `s.split(sep)[1]` as an `Option`: the segment between the first and
second occurrence of the separator, `none` when the separator does not
occur at all. -/
def afterFirst (sep : List Char) : List Char → Option (List Char)
  | [] => none
  | c :: cs =>
      match dropLit sep (c :: cs) with
      | some rest => some (takeUntilLit sep rest)
      | none => afterFirst sep cs

/-- Left-pad a sub-thousand remainder to the three digits `toFixed(3)`
prints after the decimal point. -/
def pad3 (n : Nat) : String :=
  if n < 10 then "00" ++ toString n
  else if n < 100 then "0" ++ toString n
  else toString n

/-- `(n / 1_000_000_000).toFixed(3)` for a lamport amount `n`
(transaction.ts lines 199-202): divide by 1e9 and round to the nearest
thousandth (exact for the claim-relevant inputs, which are multiples of
10^6, so no float rounding differences can arise). -/
def lamToFixed3 (n : Nat) : String :=
  let m := (n + 500000) / 1000000
  toString (m / 1000) ++ "." ++ pad3 (m % 1000)

/-- `toFixed(3)` of a possibly-negative lamport difference
(`needed - available`, line 201). -/
def lamDiffToFixed3 (z : Int) : String :=
  if z < 0 then "-" ++ lamToFixed3 z.natAbs else lamToFixed3 z.toNat

/-- The template-literal balance message of transaction.ts line 202. -/
def insufficientLamportsMessage (a b : Nat) : String :=
  "Insufficient SOL balance. You have " ++ lamToFixed3 a ++
  " SOL but need " ++ lamToFixed3 b ++ " SOL. Please add " ++
  lamDiffToFixed3 ((b : Int) - (a : Int)) ++ " more SOL to your wallet."

/-- `formatTransactionError` (transaction.ts lines 170-237), the
if-chain translated branch for branch: Anchor error-code checks on the
raw message first, then the lower-cased substring checks, then the
generic Anchor fallback, then `Transaction failed: <raw>`. -/
def formatTransactionError (msg : String) : String :=
  let message := toLower msg
  let originalMessage := msg
  if includes originalMessage "Error Code: RoomNotAvailable" ||
     includes originalMessage "Error Number: 6002" then
    "This room is no longer available for joining. It may be full, expired, or cancelled by the creator."
  else if includes originalMessage "Error Code: GameAlreadyStarted" ||
          includes originalMessage "Error Number: 6001" then
    "Cannot join: This game has already started with another player."
  else if includes originalMessage "Error Code: InvalidGameState" ||
          includes originalMessage "Error Number: 6003" then
    "Game is in an invalid state. Try refreshing the page or leaving the game."
  else if includes originalMessage "Error Code: SelectionTimeExpired" ||
          includes originalMessage "Error Number: 6004" then
    "Selection time has expired. Use \"Handle Timeout\" to resolve the game."
  else if includes originalMessage "Error Code: InsufficientFunds" ||
          includes originalMessage "Error Number: 6005" then
    "Insufficient SOL balance to cover the bet amount and transaction fees."
  else if includes message "insufficient lamports" then
    match scanLamports message.toList with
    | some av => insufficientLamportsMessage av.1 av.2
    | none => "Insufficient SOL balance to cover the bet amount and transaction fees."
  else if includes message "blockhash not found" then
    "Network connection issue. Please check your internet connection and try again."
  else if includes message "insufficient funds" then
    "Insufficient SOL balance to cover transaction and fees."
  else if includes message "user rejected" then
    "Transaction was cancelled by user."
  else if includes message "rate limit" || includes message "429" then
    "Network is busy. Please wait a moment and try again."
  else if includes message "timeout" then
    "Transaction timed out. Please try again."
  else if includes message "invalid program" then
    "Smart contract error. Please contact support."
  else if includes message "accountdidnotserialize" then
    "Game account is corrupted. Try \"Handle Timeout\" or \"Leave Game\"."
  else if includes message "constraintmut" && includes message "player_2" then
    "Cannot process: Game has no second player. Try \"Leave Game\" instead."
  else if includes message "no second player" then
    "This game never had a second player. Use \"Leave Game\" to exit."
  else if includes originalMessage "AnchorError" &&
          includes originalMessage "Error Code:" then
    match scanCode originalMessage.toList with
    | some code =>
        let detail :=
          match (afterFirst "Error Message: ".toList originalMessage.toList).map
              (takeUntilLit ['.']) with
          | none => "Please try again or contact support."
          | some [] => "Please try again or contact support."
          | some t => String.mk t
        "Game error (" ++ String.mk code ++ "): " ++ detail
    | none => "Transaction failed: " ++ msg
  else
    "Transaction failed: " ++ msg

/-! ### Helper lemmas -/

theorem sendCalls_append (xs ys : List TxEvent) :
    sendCalls (xs ++ ys) = sendCalls xs + sendCalls ys := by
  simp [sendCalls, List.filter_append]

theorem sendCalls_attemptEvents (b : Behavior) (i : Nat) :
    sendCalls (attemptEvents b i) = 1 := by
  unfold sendCalls attemptEvents
  rcases hs : b.send i with e | s
  · by_cases hi : 0 < i <;> simp [hs, hi]
  · rcases hr : raceConfirmation b i with p | _
    · rcases p with _ | q <;> by_cases hi : 0 < i <;> simp [hs, hr, hi]
    · by_cases hi : 0 < i <;> simp [hs, hr, hi]

theorem dropLit_map_lower {t cs r : List Char} (h : dropLit t cs = some r) :
    dropLit (t.map lowerChar) (cs.map lowerChar) = some (r.map lowerChar) := by
  induction t generalizing cs with
  | nil =>
      simp [dropLit] at h
      subst h
      simp [dropLit]
  | cons a as ih =>
      cases cs with
      | nil => simp [dropLit] at h
      | cons c cs' =>
          simp only [dropLit, List.map_cons] at h ⊢
          by_cases hac : a = c
          · subst hac
            rw [if_pos rfl] at h
            rw [if_pos rfl]
            exact ih h
          · rw [if_neg hac] at h
            exact absurd h (by simp)

theorem listIncludes_map_lower {t cs : List Char}
    (h : listIncludes t cs = true) :
    listIncludes (t.map lowerChar) (cs.map lowerChar) = true := by
  induction cs with
  | nil =>
      simp only [listIncludes] at h ⊢
      cases hd : dropLit t [] with
      | none => rw [hd] at h; simp at h
      | some r =>
          have := dropLit_map_lower hd
          simp only [List.map_nil] at this ⊢
          rw [this]
          rfl
  | cons c cs' ih =>
      simp only [listIncludes, Bool.or_eq_true] at h ⊢
      rcases h with h | h
      · left
        cases hd : dropLit t (c :: cs') with
        | none => rw [hd] at h; simp at h
        | some r =>
            have := dropLit_map_lower hd
            simp only [List.map_cons] at this
            rw [this]
            rfl
      · right
        exact ih h

theorem includes_toLower {hay sub : String} (h : includes hay sub = true) :
    includes (toLower hay) (toLower sub) = true :=
  listIncludes_map_lower h

theorem confirm_mem_attemptEvents {b : Behavior} {i j : Nat}
    {r : ConsensusRef} (h : TxEvent.confirmCall j r ∈ attemptEvents b i) :
    j = i ∧ r = b.refs i := by
  unfold attemptEvents at h
  rcases hs : b.send i with e | s <;> rw [hs] at h
  · by_cases hi : 0 < i <;> simp [hi] at h
  · rcases hr : raceConfirmation b i with p | _ <;> rw [hr] at h
    · rcases p with _ | q <;> by_cases hi : 0 < i <;> simp [hi] at h <;>
        exact h
    · by_cases hi : 0 < i <;> simp [hi] at h <;> exact h

theorem fetch_mem_attemptEvents {b : Behavior} {i j : Nat}
    {r : ConsensusRef} (h : TxEvent.fetch j r ∈ attemptEvents b i) :
    j = i ∧ r = b.refs i := by
  unfold attemptEvents at h
  rcases hs : b.send i with e | s <;> rw [hs] at h
  · by_cases hi : 0 < i <;> simp [hi] at h <;> exact h
  · rcases hr : raceConfirmation b i with p | _ <;> rw [hr] at h
    · rcases p with _ | q <;> by_cases hi : 0 < i <;> simp [hi] at h <;>
        exact h
    · by_cases hi : 0 < i <;> simp [hi] at h <;> exact h

theorem send_mem_attemptEvents {b : Behavior} {i j : Nat}
    (h : TxEvent.sendCall j ∈ attemptEvents b i) : j = i := by
  unfold attemptEvents at h
  rcases hs : b.send i with e | s <;> rw [hs] at h
  · by_cases hi : 0 < i <;> simp [hi] at h <;> exact h
  · rcases hr : raceConfirmation b i with p | _ <;> rw [hr] at h
    · rcases p with _ | q <;> by_cases hi : 0 < i <;> simp [hi] at h <;>
        exact h
    · by_cases hi : 0 < i <;> simp [hi] at h <;> exact h

theorem fetch_self_mem_attemptEvents (b : Behavior) (i : Nat) :
    TxEvent.fetch i (b.refs i) ∈ attemptEvents b i := by
  unfold attemptEvents
  simp

/-- Reference integrity within the events of a single attempt. -/
theorem ref_integrity_attempt (b : Behavior) (i0 j : Nat) (r : ConsensusRef) :
    (TxEvent.confirmCall j r ∈ attemptEvents b i0 →
       r = b.refs j ∧ TxEvent.fetch j (b.refs j) ∈ attemptEvents b i0) ∧
    (TxEvent.fetch j r ∈ attemptEvents b i0 → r = b.refs j) ∧
    (TxEvent.sendCall j ∈ attemptEvents b i0 →
       TxEvent.fetch j (b.refs j) ∈ attemptEvents b i0) := by
  refine ⟨fun h => ?_, fun h => ?_, fun h => ?_⟩
  · obtain ⟨hj, hr⟩ := confirm_mem_attemptEvents h
    subst hj
    exact ⟨hr, fetch_self_mem_attemptEvents b j⟩
  · obtain ⟨hj, hr⟩ := fetch_mem_attemptEvents h
    subst hj
    exact hr
  · have hj := send_mem_attemptEvents h
    subst hj
    exact fetch_self_mem_attemptEvents b j

/-- Reference integrity of the whole loop trace: a confirmation wait of
attempt `j` uses exactly the reference fetched by attempt `j`, every
fetch recorded for attempt `j` returns `b.refs j`, and every send is
preceded by that attempt's own fetch. -/
theorem retryGo_ref_integrity (b : Behavior) (mr : Int) (d : ℚ) :
    ∀ fuel i0 e0 j r,
      (TxEvent.confirmCall j r ∈ (retryGo b mr d fuel i0 e0).2 →
         r = b.refs j ∧
         TxEvent.fetch j (b.refs j) ∈ (retryGo b mr d fuel i0 e0).2) ∧
      (TxEvent.fetch j r ∈ (retryGo b mr d fuel i0 e0).2 → r = b.refs j) ∧
      (TxEvent.sendCall j ∈ (retryGo b mr d fuel i0 e0).2 →
         TxEvent.fetch j (b.refs j) ∈ (retryGo b mr d fuel i0 e0).2) := by
  intro fuel
  induction fuel with
  | zero => intro i0 e0 j r; simp [retryGo]
  | succ fuel ih =>
      intro i0 e0 j r
      cases hae : attemptError b i0 with
      | none =>
          simp only [retryGo, hae]
          exact ref_integrity_attempt b i0 j r
      | some e =>
          by_cases hnr : isNonRetryable e = true
          · by_cases hu : includes e "User rejected" = true <;>
              simp only [retryGo, hae, hnr, if_true, hu, if_false,
                Bool.false_eq_true] <;>
              exact ref_integrity_attempt b i0 j r
          · by_cases him : (i0 : Int) = mr
            · simp only [retryGo, hae, hnr, Bool.false_eq_true, if_false,
                him, if_true]
              exact ref_integrity_attempt b i0 j r
            · have hbase := ref_integrity_attempt b i0 j r
              have hrec := ih (i0 + 1) e j r
              simp only [retryGo, hae, hnr, Bool.false_eq_true, if_false,
                him]
              refine ⟨fun h => ?_, fun h => ?_, fun h => ?_⟩
              · rcases List.mem_append.1 h with h1 | h2
                · rcases List.mem_append.1 h1 with h3 | h4
                  · obtain ⟨hr1, hr2⟩ := hbase.1 h3
                    exact ⟨hr1, List.mem_append.2
                      (Or.inl (List.mem_append.2 (Or.inl hr2)))⟩
                  · simp at h4
                · obtain ⟨hr1, hr2⟩ := hrec.1 h2
                  exact ⟨hr1, List.mem_append.2 (Or.inr hr2)⟩
              · rcases List.mem_append.1 h with h1 | h2
                · rcases List.mem_append.1 h1 with h3 | h4
                  · exact hbase.2.1 h3
                  · simp at h4
                · exact hrec.2.1 h2
              · rcases List.mem_append.1 h with h1 | h2
                · rcases List.mem_append.1 h1 with h3 | h4
                  · exact List.mem_append.2
                      (Or.inl (List.mem_append.2 (Or.inl (hbase.2.2 h3))))
                  · simp at h4
                · exact List.mem_append.2 (Or.inr (hrec.2.2 h2))

/-- A first-attempt error whose message the catch block deems
non-retryable makes `retryTransaction` reject at once: with the fixed
cancellation sentence when the message contains `User rejected`
(case-sensitively), and with the raw error otherwise. -/
theorem retry_fatal (b : Behavior) (N : Nat) (d : ℚ) (msg : String)
    (hs : attemptError b 0 = some msg) (hf : isNonRetryable msg = true) :
    retryTransaction b ⟨(N : Int), d⟩ =
      ((if includes msg "User rejected" = true then
          Except.error "Transaction was cancelled by user."
        else Except.error msg), attemptEvents b 0) := by
  have hfuel : ((N : Int) + 1).toNat = N + 1 := by omega
  unfold retryTransaction
  simp [hfuel, retryGo, hs, hf]
  split <;> rfl

/-- When every attempt fails with an error the catch block deems
retryable, the loop walks through all attempts and finally rethrows the
last error, having invoked `sendFn` once per attempt. -/
theorem retryGo_all_retry (b : Behavior) (N : Nat) (d : ℚ) (m : Nat → String)
    (hm : ∀ i, attemptError b i = some (m i))
    (hnr : ∀ i, isNonRetryable (m i) = false) :
    ∀ k i e, i + k = N →
      (retryGo b (N : Int) d (k + 1) i e).1 = Except.error (m N) ∧
      sendCalls (retryGo b (N : Int) d (k + 1) i e).2 = k + 1 := by
  intro k
  induction k with
  | zero =>
      intro i e hik
      have hi : i = N := by omega
      subst hi
      simp [retryGo, hm i, hnr i, sendCalls_attemptEvents]
  | succ k ih =>
      intro i e hik
      have hne : ¬ ((i : Int) = (N : Int)) := by omega
      have hrec := ih (i + 1) (m i) (by omega)
      have hstep : retryGo b (N : Int) d (k + 1 + 1) i e =
          ((retryGo b (N : Int) d (k + 1) (i + 1) (m i)).1,
           attemptEvents b i ++
             [TxEvent.backoff (backoffDelay d i (b.jitter i))] ++
             (retryGo b (N : Int) d (k + 1) (i + 1) (m i)).2) := by
        conv_lhs => rw [retryGo]
        simp only [hm i, hnr i, Bool.false_eq_true, if_false]
        rw [if_neg hne]
      rw [hstep]
      refine ⟨hrec.1, ?_⟩
      rw [sendCalls_append, sendCalls_append, sendCalls_attemptEvents,
        hrec.2]
      simp [sendCalls]
      omega

/-! ### Claim theorems -/

instance {ε α : Type} [DecidableEq ε] [DecidableEq α] :
    DecidableEq (Except ε α)
  | Except.ok a, Except.ok b =>
      if h : a = b then isTrue (by rw [h])
      else isFalse fun hh => h (Except.ok.inj hh)
  | Except.ok _, Except.error _ => isFalse fun hh => Except.noConfusion hh
  | Except.error _, Except.ok _ => isFalse fun hh => Except.noConfusion hh
  | Except.error e, Except.error f =>
      if h : e = f then isTrue (by rw [h])
      else isFalse fun hh => h (Except.error.inj hh)

/-- Behavior used as C1's counterexample: the send thunk always throws
`timeout insufficient funds`, which matches the retryable marker
`timeout` yet also hits the fatal `insufficient funds` check. -/
def cexC1Behavior : Behavior :=
  ⟨fun _ => ⟨"cex1-blockhash", 1⟩,
   fun _ => Except.error "timeout insufficient funds",
   fun _ => none, fun _ => 0⟩

/-- C1, counterexample: `timeout insufficient funds` matches the
retryable marker `timeout`, yet with `maxRetries = 1` the loop invokes
`sendFn` only once (not `1 + 1` times) and rejects at once with the raw
error, because the catch block's fatal-substring check fires first. -/
theorem c1_counterexample :
    isRetryableError "timeout insufficient funds" = true ∧
    (retryTransaction cexC1Behavior ⟨1, 1000⟩).1 =
      Except.error "timeout insufficient funds" ∧
    sendCalls (retryTransaction cexC1Behavior ⟨1, 1000⟩).2 = 1 := by
  decide

/-- C1 (amended): for maxRetries = N ≥ 0, if every send fails with a
message that matches a retryable marker AND contains none of the
non-retry substrings (`User rejected`, `insufficient funds`,
`insufficient lamports`, `Invalid program`, `ConstraintMut`,
`no second player`) nor a program-logic marker, then `retryTransaction`
invokes `sendFn` exactly N + 1 times and rejects with the last error. -/
theorem c1_retryable_attempts (b : Behavior) (N : Nat) (d : ℚ)
    (m : Nat → String)
    (hs : ∀ i, b.send i = Except.error (m i))
    (hret : ∀ i, isRetryableError (m i) = true)
    (hnof : ∀ i,
      (includes (m i) "User rejected" || includes (m i) "insufficient funds" ||
       includes (m i) "insufficient lamports" ||
       includes (m i) "Invalid program" || includes (m i) "ConstraintMut" ||
       includes (m i) "no second player" ||
       isProgramLogicError (m i)) = false) :
    (retryTransaction b ⟨(N : Int), d⟩).1 = Except.error (m N) ∧
    sendCalls (retryTransaction b ⟨(N : Int), d⟩).2 = N + 1 := by
  have hnr : ∀ i, isNonRetryable (m i) = false := by
    intro i
    simp only [isNonRetryable, hnof i, hret i]
    simp
  have hm : ∀ i, attemptError b i = some (m i) := by
    intro i
    simp [attemptError, hs i]
  have hfuel : ((N : Int) + 1).toNat = N + 1 := by omega
  have hrt : retryTransaction b ⟨(N : Int), d⟩ =
      retryGo b (N : Int) d (N + 1) 0 "Transaction failed" := by
    show retryGo b (N : Int) d ((N : Int) + 1).toNat 0 "Transaction failed" = _
    rw [hfuel]
  rw [hrt]
  exact retryGo_all_retry b N d m hm hnr N 0 "Transaction failed" (by omega)

/-- Behavior used as C1's witness: every send throws `network error`. -/
def witC1Behavior : Behavior :=
  ⟨fun _ => ⟨"wit1-blockhash", 1⟩, fun _ => Except.error "network error",
   fun _ => none, fun _ => 0⟩

/-- Witness for C1's amended theorem at maxRetries = 2 and the plainly
retryable message `network error`: three send calls, rejection with the
last error. -/
theorem c1_retryable_attempts_witness :
    (retryTransaction witC1Behavior ⟨((2 : Nat) : Int), 1000⟩).1 =
      Except.error "network error" ∧
    sendCalls (retryTransaction witC1Behavior ⟨((2 : Nat) : Int), 1000⟩).2 =
      2 + 1 :=
  c1_retryable_attempts witC1Behavior 2 1000 (fun _ => "network error")
    (fun _ => rfl)
    (fun _ => (by decide : isRetryableError "network error" = true))
    (fun _ =>
      (by decide :
        (includes "network error" "User rejected" ||
         includes "network error" "insufficient funds" ||
         includes "network error" "insufficient lamports" ||
         includes "network error" "Invalid program" ||
         includes "network error" "ConstraintMut" ||
         includes "network error" "no second player" ||
         isProgramLogicError "network error") = false))

/-- Behavior used as C2's counterexample: the message carries both the
program-logic marker `Error Number: 6003` and `User rejected`. -/
def cexC2Behavior : Behavior :=
  ⟨fun _ => ⟨"cex2-blockhash", 2⟩,
   fun _ => Except.error "Error Number: 6003 then User rejected",
   fun _ => none, fun _ => 0⟩

/-- C2, counterexample: a message containing a program-logic marker is
not always rejected with the raw error — when it also contains
`User rejected`, the loop rejects with the fixed cancellation sentence
instead (the attempt count is still one). -/
theorem c2_counterexample :
    isProgramLogicError "Error Number: 6003 then User rejected" = true ∧
    (retryTransaction cexC2Behavior ⟨2, 1000⟩).1 =
      Except.error "Transaction was cancelled by user." ∧
    (retryTransaction cexC2Behavior ⟨2, 1000⟩).1 ≠
      Except.error "Error Number: 6003 then User rejected" := by
  decide

/-- C2 (amended): a first-attempt error containing a program-logic
marker makes `retryTransaction` perform exactly one attempt regardless
of `maxRetries`, and — provided the message does not also contain
`User rejected` — reject with the raw error. -/
theorem c2_program_logic_single_attempt (b : Behavior) (N : Nat) (d : ℚ)
    (msg : String)
    (hpl : isProgramLogicError msg = true)
    (hur : includes msg "User rejected" = false)
    (hs : b.send 0 = Except.error msg) :
    (retryTransaction b ⟨(N : Int), d⟩).1 = Except.error msg ∧
    sendCalls (retryTransaction b ⟨(N : Int), d⟩).2 = 1 := by
  have hae : attemptError b 0 = some msg := by simp [attemptError, hs]
  have hf : isNonRetryable msg = true := by simp [isNonRetryable, hpl]
  rw [retry_fatal b N d msg hae hf]
  simp [hur, sendCalls_attemptEvents]

/-- Behavior used as C2's witness: the send thunk throws the
program-logic error `Error Number: 6002 room gone`. -/
def witC2Behavior : Behavior :=
  ⟨fun _ => ⟨"wit2-blockhash", 2⟩,
   fun _ => Except.error "Error Number: 6002 room gone",
   fun _ => none, fun _ => 0⟩

/-- Witness for C2's amended theorem at maxRetries = 3: one attempt,
raw error surfaced. -/
theorem c2_program_logic_single_attempt_witness :
    (retryTransaction witC2Behavior ⟨((3 : Nat) : Int), 1000⟩).1 =
      Except.error "Error Number: 6002 room gone" ∧
    sendCalls (retryTransaction witC2Behavior ⟨((3 : Nat) : Int), 1000⟩).2 =
      1 :=
  c2_program_logic_single_attempt witC2Behavior 3 1000
    "Error Number: 6002 room gone" (by decide) (by decide) rfl

/-- Behavior used as C3's counterexample: the send thunk throws an
error whose message is the lower-case `user rejected`. -/
def cexC3Behavior : Behavior :=
  ⟨fun _ => ⟨"cex3-blockhash", 3⟩, fun _ => Except.error "user rejected",
   fun _ => none, fun _ => 0⟩

/-- C3, counterexample: the message `user rejected` contains
"user rejected" case-insensitively, yet `retryTransaction` rejects with
the raw error, not the fixed cancellation sentence — the loop's check
`includes('User rejected')` is case-sensitive. -/
theorem c3_counterexample :
    includes (toLower "user rejected") "user rejected" = true ∧
    (retryTransaction cexC3Behavior ⟨3, 1000⟩).1 =
      Except.error "user rejected" ∧
    (retryTransaction cexC3Behavior ⟨3, 1000⟩).1 ≠
      Except.error "Transaction was cancelled by user." := by
  decide

/-- C3 (amended): for an error message containing `User rejected` with
exactly that casing, `retryTransaction` rejects immediately (one
attempt) with the fixed sentence `Transaction was cancelled by user.`
and never the raw message; `formatTransactionError` — whose match is
case-insensitive — returns the same fixed sentence provided no
earlier formatting rule (Anchor code markers, insufficient lamports,
blockhash not found, insufficient funds) matches the message. -/
theorem c3_user_rejected (b : Behavior) (N : Nat) (d : ℚ) (msg : String)
    (hur : includes msg "User rejected" = true)
    (hs : b.send 0 = Except.error msg)
    (hx1 : includes msg "Error Code: RoomNotAvailable" = false)
    (hx2 : includes msg "Error Number: 6002" = false)
    (hx3 : includes msg "Error Code: GameAlreadyStarted" = false)
    (hx4 : includes msg "Error Number: 6001" = false)
    (hx5 : includes msg "Error Code: InvalidGameState" = false)
    (hx6 : includes msg "Error Number: 6003" = false)
    (hx7 : includes msg "Error Code: SelectionTimeExpired" = false)
    (hx8 : includes msg "Error Number: 6004" = false)
    (hx9 : includes msg "Error Code: InsufficientFunds" = false)
    (hx10 : includes msg "Error Number: 6005" = false)
    (hx11 : includes (toLower msg) "insufficient lamports" = false)
    (hx12 : includes (toLower msg) "blockhash not found" = false)
    (hx13 : includes (toLower msg) "insufficient funds" = false) :
    (retryTransaction b ⟨(N : Int), d⟩).1 =
      Except.error "Transaction was cancelled by user." ∧
    sendCalls (retryTransaction b ⟨(N : Int), d⟩).2 = 1 ∧
    formatTransactionError msg = "Transaction was cancelled by user." := by
  have hae : attemptError b 0 = some msg := by simp [attemptError, hs]
  have hf : isNonRetryable msg = true := by simp [isNonRetryable, hur]
  have hlow : includes (toLower msg) "user rejected" = true := by
    have h2 := includes_toLower hur
    rwa [show toLower "User rejected" = "user rejected" from by decide] at h2
  rw [retry_fatal b N d msg hae hf]
  refine ⟨by simp [hur], by simp [sendCalls_attemptEvents], ?_⟩
  simp [formatTransactionError, hx1, hx2, hx3, hx4, hx5, hx6, hx7, hx8,
    hx9, hx10, hx11, hx12, hx13, hlow]

/-- Behavior used as C3's witness. -/
def witC3Behavior : Behavior :=
  ⟨fun _ => ⟨"wit3-blockhash", 3⟩,
   fun _ => Except.error "User rejected the request",
   fun _ => none, fun _ => 0⟩

/-- Witness for C3's amended theorem on the exactly-cased message
`User rejected the request`. -/
theorem c3_user_rejected_witness :
    (retryTransaction witC3Behavior ⟨((2 : Nat) : Int), 1000⟩).1 =
      Except.error "Transaction was cancelled by user." ∧
    sendCalls (retryTransaction witC3Behavior ⟨((2 : Nat) : Int), 1000⟩).2 =
      1 ∧
    formatTransactionError "User rejected the request" =
      "Transaction was cancelled by user." :=
  c3_user_rejected witC3Behavior 2 1000 "User rejected the request"
    (by decide) rfl (by decide) (by decide) (by decide) (by decide)
    (by decide) (by decide) (by decide) (by decide) (by decide) (by decide)
    (by decide) (by decide) (by decide)

/-- C4, counterexample behavior: retryable failures with jitter 499ms
before the second attempt and 0ms before the third. -/
def cexC4Behavior : Behavior :=
  ⟨fun _ => ⟨"cex4-blockhash", 4⟩, fun _ => Except.error "network error",
   fun _ => none, fun i => if i = 0 then 499 else 0⟩

/-- C4, counterexample: with `baseRetryDelayMs = 100` and admissible
jitters 499 and 0 (both in [0, 500)), a single run produces the
inter-attempt delays 599ms then 200ms — strictly decreasing, refuting
the claim that delays are non-decreasing across a run. -/
theorem c4_counterexample :
    (0 : ℚ) ≤ 499 ∧ (499 : ℚ) < 500 ∧ (0 : ℚ) ≤ 0 ∧ (0 : ℚ) < 500 ∧
    backoffs (retryTransaction cexC4Behavior ⟨2, 100⟩).2 = [599, 200] ∧
    ¬ ((599 : ℚ) ≤ 200) := by
  refine ⟨by norm_num, by norm_num, by norm_num, by norm_num, ?_,
    by norm_num⟩
  have hnr : isNonRetryable "network error" = false := by decide
  have e1 : attemptError cexC4Behavior 0 = some "network error" := rfl
  have e2 : attemptError cexC4Behavior 1 = some "network error" := rfl
  have e3 : attemptError cexC4Behavior 2 = some "network error" := rfl
  have c0 : ¬ (((0 : Nat) : Int) = 2) := by decide
  have c1 : ¬ (((1 : Nat) : Int) = 2) := by decide
  have c2 : (((2 : Nat) : Int) = 2) := by decide
  have j0 : cexC4Behavior.jitter 0 = 499 := rfl
  have j1 : cexC4Behavior.jitter 1 = 0 := rfl
  have ae0 : attemptEvents cexC4Behavior 0 =
      [TxEvent.fetch 0 ⟨"cex4-blockhash", 4⟩, TxEvent.sendCall 0] := rfl
  have ae1 : attemptEvents cexC4Behavior 1 =
      [TxEvent.fetch 1 ⟨"cex4-blockhash", 4⟩, TxEvent.settle 300,
       TxEvent.sendCall 1] := rfl
  have ae2 : attemptEvents cexC4Behavior 2 =
      [TxEvent.fetch 2 ⟨"cex4-blockhash", 4⟩, TxEvent.settle 300,
       TxEvent.sendCall 2] := rfl
  show backoffs (retryGo cexC4Behavior 2 100 3 0 "Transaction failed").2 =
    [599, 200]
  simp only [retryGo, e1, e2, e3, hnr, Bool.false_eq_true, if_false, c0,
    c1, c2, if_true, ae0, ae1, ae2, j0, j1, backoffDelay, backoffs,
    List.filterMap_append, List.filterMap_cons, List.filterMap_nil]
  norm_num

/-- C4 (amended): the delay before the attempt after a failure at index
`i` is `baseRetryDelayMs * 2^i + jitter` with jitter in [0, 500), hence
bounded below by `baseRetryDelayMs * 2^i` and strictly above-bounded by
that value plus 500ms; the delays are non-decreasing in `i` whenever
`baseRetryDelayMs ≥ 500` (which holds at the default 1000), but not for
smaller bases. -/
theorem c4_backoff_bounds (d j j' : ℚ) (i : Nat)
    (h0 : 0 ≤ j) (h1 : j < 500) (h0' : 0 ≤ j') (_h1' : j' < 500) :
    d * 2 ^ i ≤ backoffDelay d i j ∧
    backoffDelay d i j < d * 2 ^ i + 500 ∧
    (500 ≤ d → backoffDelay d i j ≤ backoffDelay d (i + 1) j') := by
  unfold backoffDelay
  refine ⟨by linarith, by linarith, fun hd => ?_⟩
  have h2 : (1 : ℚ) ≤ 2 ^ i := one_le_pow₀ (by norm_num)
  have h3 : 0 ≤ d * (2 ^ i - 1) :=
    mul_nonneg (le_trans (by norm_num) hd) (by linarith)
  have h4 : d * 2 ^ (i + 1) = 2 * (d * 2 ^ i) := by ring
  nlinarith

/-- Witness for C4's amended theorem at the default base delay 1000,
i = 0, jitters 250 and 0. -/
theorem c4_backoff_bounds_witness :
    ((0 : ℚ) ≤ 250 ∧ (250 : ℚ) < 500 ∧ (0 : ℚ) ≤ 0 ∧ (0 : ℚ) < 500) ∧
    ((1000 : ℚ) * 2 ^ 0 ≤ backoffDelay 1000 0 250 ∧
     backoffDelay 1000 0 250 < 1000 * 2 ^ 0 + 500 ∧
     ((500 : ℚ) ≤ 1000 →
        backoffDelay 1000 0 250 ≤ backoffDelay 1000 (0 + 1) 0)) :=
  ⟨by norm_num,
   c4_backoff_bounds 1000 250 0 0 (by norm_num) (by norm_num) (by norm_num)
     (by norm_num)⟩

/-- Behavior used as C5's counterexample: the message contains both the
program-logic marker `RoomNotAvailable` and `User rejected`. -/
def cexC5Behavior : Behavior :=
  ⟨fun _ => ⟨"cex5-blockhash", 5⟩,
   fun _ => Except.error "RoomNotAvailable: User rejected the request",
   fun _ => none, fun _ => 0⟩

/-- C5, counterexample: on a message carrying both a program-logic
marker and the user-cancellation marker, `retryTransaction` rejects
with the cancellation sentence, not the raw error — the user-rejection
check wins inside the non-retry branch, contradicting the claimed
program-logic-first priority. -/
theorem c5_counterexample :
    isProgramLogicError "RoomNotAvailable: User rejected the request" =
      true ∧
    includes "RoomNotAvailable: User rejected the request" "User rejected" =
      true ∧
    (retryTransaction cexC5Behavior ⟨3, 1000⟩).1 =
      Except.error "Transaction was cancelled by user." ∧
    (retryTransaction cexC5Behavior ⟨3, 1000⟩).1 ≠
      Except.error "RoomNotAvailable: User rejected the request" := by
  decide

/-- C5 (amended): when a first-attempt error message contains both a
program-logic marker and `User rejected` (exact casing), the run still
makes exactly one attempt, but the user-cancellation handling wins:
`retryTransaction` rejects with the fixed cancellation sentence rather
than the raw error. -/
theorem c5_both_markers (b : Behavior) (N : Nat) (d : ℚ) (msg : String)
    (hpl : isProgramLogicError msg = true)
    (hur : includes msg "User rejected" = true)
    (hs : b.send 0 = Except.error msg) :
    (retryTransaction b ⟨(N : Int), d⟩).1 =
      Except.error "Transaction was cancelled by user." ∧
    sendCalls (retryTransaction b ⟨(N : Int), d⟩).2 = 1 := by
  have hae : attemptError b 0 = some msg := by simp [attemptError, hs]
  have hf : isNonRetryable msg = true := by simp [isNonRetryable, hpl]
  rw [retry_fatal b N d msg hae hf]
  simp [hur, sendCalls_attemptEvents]

/-- Behavior used as C5's witness. -/
def witC5Behavior : Behavior :=
  ⟨fun _ => ⟨"wit5-blockhash", 5⟩,
   fun _ => Except.error "GameAlreadyStarted - User rejected",
   fun _ => none, fun _ => 0⟩

/-- Witness for C5's amended theorem. -/
theorem c5_both_markers_witness :
    (retryTransaction witC5Behavior ⟨((4 : Nat) : Int), 1000⟩).1 =
      Except.error "Transaction was cancelled by user." ∧
    sendCalls (retryTransaction witC5Behavior ⟨((4 : Nat) : Int), 1000⟩).2 =
      1 :=
  c5_both_markers witC5Behavior 4 1000 "GameAlreadyStarted - User rejected"
    (by decide) (by decide) rfl

/-- C6: each attempt races confirmation against the fixed 60-second
timer; when confirmation never resolves inside the window (at no
attempt), every attempt fails with `Transaction confirmation timeout`,
which the classifier deems retryable, so the run — a total function,
never suspended indefinitely — walks through all `maxRetries + 1`
attempts and then fails terminally with that timeout error. -/
theorem c6_confirmation_timeout (b : Behavior) (N : Nat) (d : ℚ)
    (hs : ∀ i, ∃ s, b.send i = Except.ok s)
    (hc : ∀ i t p, b.confirmResolve i = some (t, p) →
        confirmationTimeoutMs ≤ t) :
    (retryTransaction b ⟨(N : Int), d⟩).1 =
      Except.error "Transaction confirmation timeout" ∧
    sendCalls (retryTransaction b ⟨(N : Int), d⟩).2 = N + 1 ∧
    isRetryableError "Transaction confirmation timeout" = true := by
  have hm : ∀ i,
      attemptError b i = some "Transaction confirmation timeout" := by
    intro i
    obtain ⟨s, hsi⟩ := hs i
    have hrace : raceConfirmation b i = RaceOutcome.timedOut := by
      unfold raceConfirmation
      cases hcr : b.confirmResolve i with
      | none => rfl
      | some tp =>
          obtain ⟨t, p⟩ := tp
          have ht := hc i t p hcr
          show (if t < confirmationTimeoutMs then RaceOutcome.confirmed p
                else RaceOutcome.timedOut) = RaceOutcome.timedOut
          rw [if_neg (Nat.not_lt.2 ht)]
    simp [attemptError, hsi, hrace]
  have hnr : isNonRetryable "Transaction confirmation timeout" = false := by
    decide
  have hfuel : ((N : Int) + 1).toNat = N + 1 := by omega
  have hrt : retryTransaction b ⟨(N : Int), d⟩ =
      retryGo b (N : Int) d (N + 1) 0 "Transaction failed" := by
    show retryGo b (N : Int) d ((N : Int) + 1).toNat 0 "Transaction failed"
      = _
    rw [hfuel]
  rw [hrt]
  have hmain := retryGo_all_retry b N d
    (fun _ => "Transaction confirmation timeout") hm (fun _ => hnr) N 0
    "Transaction failed" (by omega)
  exact ⟨hmain.1, hmain.2, by decide⟩

/-- Behavior used as C6's witness: sends always produce a signature and
the confirmation promise never resolves. -/
def witC6Behavior : Behavior :=
  ⟨fun _ => ⟨"wit6-blockhash", 6⟩, fun _ => Except.ok "SIGNATURE",
   fun _ => none, fun _ => 0⟩

/-- Witness for C6 at maxRetries = 1: two attempts, terminal timeout
error, classified retryable. -/
theorem c6_confirmation_timeout_witness :
    (retryTransaction witC6Behavior ⟨((1 : Nat) : Int), 1000⟩).1 =
      Except.error "Transaction confirmation timeout" ∧
    sendCalls (retryTransaction witC6Behavior ⟨((1 : Nat) : Int), 1000⟩).2 =
      1 + 1 ∧
    isRetryableError "Transaction confirmation timeout" = true :=
  c6_confirmation_timeout witC6Behavior 1 1000
    (fun _ => ⟨"SIGNATURE", rfl⟩) (fun _ _ _ h => nomatch h)

/-- C7: the classifier and formatter are total — in this embedding both
are total Lean functions on all strings by construction — and a failure
to parse the numeric amounts in an insufficient-balance message makes
`formatTransactionError` fall back to the generic balance message
instead of failing. -/
theorem c7_classifier_formatter_total (msg : String)
    (h1 : (includes msg "Error Code: RoomNotAvailable" ||
           includes msg "Error Number: 6002") = false)
    (h2 : (includes msg "Error Code: GameAlreadyStarted" ||
           includes msg "Error Number: 6001") = false)
    (h3 : (includes msg "Error Code: InvalidGameState" ||
           includes msg "Error Number: 6003") = false)
    (h4 : (includes msg "Error Code: SelectionTimeExpired" ||
           includes msg "Error Number: 6004") = false)
    (h5 : (includes msg "Error Code: InsufficientFunds" ||
           includes msg "Error Number: 6005") = false)
    (hlam : includes (toLower msg) "insufficient lamports" = true)
    (hparse : scanLamports (toLower msg).toList = none) :
    formatTransactionError msg =
      "Insufficient SOL balance to cover the bet amount and transaction fees." ∧
    (isRetryableError msg = true ∨ isRetryableError msg = false) := by
  refine ⟨?_, ?_⟩
  · have hparse' : scanLamports (toLower msg).data = none := hparse
    simp [formatTransactionError, h1, h2, h3, h4, h5, hlam, hparse']
  · cases hb : isRetryableError msg
    · exact Or.inr rfl
    · exact Or.inl rfl

/-- Witness for C7 on `insufficient lamports deficit`, whose embedded
amounts fail to parse. -/
theorem c7_classifier_formatter_total_witness :
    formatTransactionError "insufficient lamports deficit" =
      "Insufficient SOL balance to cover the bet amount and transaction fees." ∧
    (isRetryableError "insufficient lamports deficit" = true ∨
     isRetryableError "insufficient lamports deficit" = false) :=
  c7_classifier_formatter_total "insufficient lamports deficit"
    (by decide) (by decide) (by decide) (by decide) (by decide) (by decide)
    (by decide)

/-- C8, counterexample: for available = 500000000 and needed =
1000000000 the formatter reports the amounts with THREE decimal places
(`0.500`, `1.000`, `0.500`), not the claimed two-decimal precision
(`0.50`, `1.00`, `0.50`). -/
theorem c8_counterexample :
    formatTransactionError
        "Transfer: insufficient lamports 500000000, need 1000000000" =
      "Insufficient SOL balance. You have 0.500 SOL but need 1.000 SOL. Please add 0.500 more SOL to your wallet." ∧
    formatTransactionError
        "Transfer: insufficient lamports 500000000, need 1000000000" ≠
      "Insufficient SOL balance. You have 0.50 SOL but need 1.00 SOL. Please add 0.50 more SOL to your wallet." := by
  refine ⟨by decide, by decide⟩

/-- C8 (amended): when the insufficient-lamports pattern parses amounts
`a` (available) and `b` (needed), the formatter converts them from
lamports to SOL (dividing by 1e9) and composes the balance message with
available, needed and shortfall rendered to THREE-decimal precision; in
particular available = 500000000 and needed = 1000000000 yields
available 0.500, needed 1.000, shortfall 0.500. -/
theorem c8_lamports_three_decimals (msg : String) (a b' : Nat)
    (h1 : (includes msg "Error Code: RoomNotAvailable" ||
           includes msg "Error Number: 6002") = false)
    (h2 : (includes msg "Error Code: GameAlreadyStarted" ||
           includes msg "Error Number: 6001") = false)
    (h3 : (includes msg "Error Code: InvalidGameState" ||
           includes msg "Error Number: 6003") = false)
    (h4 : (includes msg "Error Code: SelectionTimeExpired" ||
           includes msg "Error Number: 6004") = false)
    (h5 : (includes msg "Error Code: InsufficientFunds" ||
           includes msg "Error Number: 6005") = false)
    (hlam : includes (toLower msg) "insufficient lamports" = true)
    (hparse : scanLamports (toLower msg).toList = some (a, b')) :
    formatTransactionError msg = insufficientLamportsMessage a b' ∧
    insufficientLamportsMessage 500000000 1000000000 =
      "Insufficient SOL balance. You have 0.500 SOL but need 1.000 SOL. Please add 0.500 more SOL to your wallet." := by
  refine ⟨?_, by decide⟩
  have hparse' : scanLamports (toLower msg).data = some (a, b') := hparse
  simp [formatTransactionError, h1, h2, h3, h4, h5, hlam, hparse']

/-- Witness for C8's amended theorem at the concrete message of the
spec's example. -/
theorem c8_lamports_three_decimals_witness :
    formatTransactionError
        "Transfer: insufficient lamports 500000000, need 1000000000" =
      insufficientLamportsMessage 500000000 1000000000 ∧
    insufficientLamportsMessage 500000000 1000000000 =
      "Insufficient SOL balance. You have 0.500 SOL but need 1.000 SOL. Please add 0.500 more SOL to your wallet." :=
  c8_lamports_three_decimals
    "Transfer: insufficient lamports 500000000, need 1000000000"
    500000000 1000000000 (by decide) (by decide) (by decide) (by decide)
    (by decide) (by decide) (by decide)

/-- C9: in every run, a recorded confirmation wait of attempt `j` uses
exactly the consensus reference fetched by attempt `j` itself, every
fetch of attempt `j` returns that attempt's fresh reference, and every
attempt that invoked `sendFn` also fetched its own reference — no
reference is ever confirmed against an attempt it was not fetched
for. -/
theorem c9_fresh_reference (b : Behavior) (opts : RetryOptions) (j : Nat)
    (r : ConsensusRef) :
    (TxEvent.confirmCall j r ∈ (retryTransaction b opts).2 →
       r = b.refs j ∧
       TxEvent.fetch j (b.refs j) ∈ (retryTransaction b opts).2) ∧
    (TxEvent.fetch j r ∈ (retryTransaction b opts).2 → r = b.refs j) ∧
    (TxEvent.sendCall j ∈ (retryTransaction b opts).2 →
       TxEvent.fetch j (b.refs j) ∈ (retryTransaction b opts).2) :=
  retryGo_ref_integrity b opts.maxRetries opts.retryDelay
    (opts.maxRetries + 1).toNat 0 "Transaction failed" j r

/-- Behavior used as C9's witness: a clean first-attempt success. -/
def witC9Behavior : Behavior :=
  ⟨fun i => ⟨"wit9-blockhash", i⟩, fun _ => Except.ok "SIG9",
   fun _ => some (5, none), fun _ => 0⟩

/-- Witness for C9: attempt 0's confirmation wait in a concrete run
uses the reference fetched at attempt 0. -/
theorem c9_fresh_reference_witness :
    (⟨"wit9-blockhash", 0⟩ : ConsensusRef) = witC9Behavior.refs 0 ∧
    TxEvent.fetch 0 (witC9Behavior.refs 0) ∈
      (retryTransaction witC9Behavior ⟨3, 1000⟩).2 :=
  (c9_fresh_reference witC9Behavior ⟨3, 1000⟩ 0
    ⟨"wit9-blockhash", 0⟩).1 (by decide)

/-- C10: a negative `maxRetries` makes the loop condition
`attempt <= maxRetries` fail immediately: the run performs zero
attempts — no send, no blockhash fetch, an empty event trace — and
rejects with the placeholder error `Transaction failed`, which claims
no signature. -/
theorem c10_negative_max_retries (b : Behavior) (opts : RetryOptions)
    (hneg : opts.maxRetries < 0) :
    retryTransaction b opts = (Except.error "Transaction failed", []) := by
  unfold retryTransaction
  have h0 : (opts.maxRetries + 1).toNat = 0 := by omega
  rw [h0]
  rfl

/-- Behavior used as C10's witness. -/
def witC10Behavior : Behavior :=
  ⟨fun _ => ⟨"wit10-blockhash", 10⟩, fun _ => Except.ok "SIG10",
   fun _ => some (5, none), fun _ => 0⟩

/-- Witness for C10 at maxRetries = -1. -/
theorem c10_negative_max_retries_witness :
    retryTransaction witC10Behavior ⟨-1, 1000⟩ =
      (Except.error "Transaction failed", []) :=
  c10_negative_max_retries witC10Behavior ⟨-1, 1000⟩ (by decide)

end FlipCoin
